import Mathlib

/-!
Shallow embedding of the compressed-NFT transfer subsystem of the
matt-sol-nft-airdrops repository (src/src/lib/solana/nft-transfer.ts and the
transfer variants in src/unnamed/part_001 and src/unnamed/part_002).

Network I/O (the Helius DAS API, wallet signing, transaction submission) is
modelled by oracles: a job index and an attempt number select the outcome the
external world produces for that call.  Everything else - validation,
retry loops, instruction construction, the per-job orchestration loop -
is translated directly from the TypeScript source.
-/

namespace NftAirdrop

/-- Bytes of a string, as produced by Buffer.from on an ASCII string. -/
def toBytes (s : String) : List Nat := s.data.map Char.toNat

/-- Program id constants from nft-transfer.ts (base58 strings). -/
def BUBBLEGUM_PROGRAM_ID : String := "BGUMAp9Gq7iTEuizy4pqaxsTyUCBK68MDfK752saRPUY"

def SPL_NOOP_PROGRAM_ID : String := "noopb9bkMVfRPU8AsbpTUg8AQkHtKwMYZiFUjNRtMmV"

def SPL_ACCOUNT_COMPRESSION_PROGRAM_ID : String := "cmtDvXumGCrqC1Age74AVPhSRVXJMd8PJS91L8KbNCK"

def SYSTEM_PROGRAM_ID : String := "11111111111111111111111111111111"

/-- Little-endian serialization of a 64-bit unsigned integer (8 bytes). -/
def u64LE (n : Nat) : List Nat := (List.range 8).map fun i => n / 256 ^ i % 256

/-- Little-endian serialization of a 32-bit unsigned integer (4 bytes). -/
def u32LE (n : Nat) : List Nat := (List.range 4).map fun i => n / 256 ^ i % 256

/-- Fixed-width 32-byte field: truncate to 32 bytes and zero-pad to 32 bytes,
the semantics of the fixed-size bytes serializer used for root, dataHash and
creatorHash. -/
def fix32 (b : List Nat) : List Nat := b.take 32 ++ List.replicate (32 - b.length) 0

/-- The 8-byte Anchor discriminator of the Bubblegum transfer instruction. -/
def TRANSFER_DISCRIMINATOR : List Nat := [163, 52, 200, 231, 140, 3, 69, 186]

/-- Value of one base64 alphabet character, none for characters outside the
alphabet (Buffer.from with base64 skips those, including padding). -/
def b64Val (c : Char) : Option Nat :=
  if 65 ≤ c.toNat ∧ c.toNat ≤ 90 then some (c.toNat - 65)
  else if 97 ≤ c.toNat ∧ c.toNat ≤ 122 then some (c.toNat - 71)
  else if 48 ≤ c.toNat ∧ c.toNat ≤ 57 then some (c.toNat + 4)
  else if c = '+' then some 62
  else if c = '/' then some 63
  else none

/-- Regroup a list of 6-bit values into 8-bit bytes, four values to three
bytes, dropping the bits an incomplete trailing group cannot fill. -/
def b64DecodeAux : List Nat → List Nat
  | a :: b :: c :: d :: rest =>
      (a * 4 + b / 16) :: (b % 16 * 16 + c / 4) :: (c % 4 * 64 + d) :: b64DecodeAux rest
  | [a, b, c] => [a * 4 + b / 16, b % 16 * 16 + c / 4]
  | [a, b] => [a * 4 + b / 16]
  | _ => []

/-- Model of Buffer.from(s, base64): decode the base64 characters of s. -/
def bufferFromBase64 (s : String) : List Nat := b64DecodeAux (s.data.filterMap b64Val)

/-- Modelled from the spec: the payload serializer
getTransferInstructionDataSerializer of the external mpl-bubblegum library is
not part of this repository; per spec section 4.3 it writes an 8-byte transfer
discriminator, then root, dataHash and creatorHash as fixed-width byte
strings, then nonce as an 8-byte little-endian integer and the index as a
4-byte little-endian integer. -/
def serializeTransferInstructionData (root dataHash creatorHash : List Nat)
    (nonce idx : Nat) : List Nat :=
  TRANSFER_DISCRIMINATOR ++ fix32 root ++ fix32 dataHash ++ fix32 creatorHash ++
    u64LE nonce ++ u32LE idx

/-- Deterministic stand-in for PublicKey.findProgramAddressSync of the external
web3.js library: an injective encoding of the pair (seed list, program id).
The real derivation hashes the seeds with the program id; all the development
uses is that the output is a function of exactly these inputs. -/
def findProgramAddressSync (seeds : List (List Nat)) (programId : String) : String :=
  String.intercalate "/" (seeds.map fun s => String.intercalate "," (s.map toString)) ++
    "@" ++ programId

/-- Ownership record of a DAS getAsset response. -/
structure Ownership where
  owner : String
  delegate : Option String
deriving DecidableEq

/-- Compression record of a DAS getAsset response. -/
structure Compression where
  tree : String
  data_hash : String
  creator_hash : String
  leaf_id : Nat
deriving DecidableEq

/-- Asset data as consumed by transferCompressedNFTs. -/
structure AssetData where
  ownership : Ownership
  compression : Compression
deriving DecidableEq

/-- Shape of the proof field of a DAS getAssetProof response: absent, present
but not an array, or an array of sibling-node addresses. -/
inductive RawProofField where
  | missing
  | notArray
  | array (nodes : List String)
deriving DecidableEq

/-- Proof object of a DAS getAssetProof response; root is the base64/base58
string of the tree root, the empty string standing for a missing (falsy)
root. -/
structure RawProof where
  root : String
  proof : RawProofField
deriving DecidableEq

/-- Outcome the external world produces for one getAsset call: a network or
API error (the catch branch), or a JSON result that may be null. -/
inductive AssetAttempt where
  | transport
  | result (r : Option AssetData)

/-- fetchIndividualAssetData: a single getAsset request with no retry; any
error is caught and surfaces as null (none). -/
def fetchIndividualAssetData (oracle : Nat → AssetAttempt) : Option AssetData :=
  match oracle 1 with
  | AssetAttempt.transport => none
  | AssetAttempt.result r => r

/-- Outcome the external world produces for one getAssetProof call: an HTTP or
DAS error (thrown), or a JSON result that may be null. -/
inductive ProofAttempt where
  | transport
  | result (r : Option RawProof)

/-- Is the proof field an array. -/
def isArrayField : RawProofField → Bool
  | RawProofField.array _ => true
  | _ => false

/-- Structural validation inside fetchIndividualAssetProof: the result must be
non-null with a truthy root and a proof field that is an array; otherwise the
attempt throws (none). -/
def validateProofStructure : Option RawProof → Option RawProof
  | none => none
  | some p => if p.root ≠ "" ∧ isArrayField p.proof then some p else none

/-- One attempt of the proof fetch: a transport error fails the attempt, a
result is kept only if it passes structural validation. -/
def attemptResult (oracle : Nat → ProofAttempt) (attempt : Nat) : Option RawProof :=
  match oracle attempt with
  | ProofAttempt.transport => none
  | ProofAttempt.result r => validateProofStructure r

/-- Observable behaviour of one proof fetch: the returned proof (none when the
retry budget was exhausted and the fetch threw), the delays slept between
attempts, and how many attempts were made. -/
structure ProofFetch where
  result : Option RawProof
  delays : List Nat
  attempts : Nat
deriving DecidableEq

/-- The retry loop of fetchIndividualAssetProof: attempts are numbered from 1;
a failed attempt that is not the last sleeps 1000 * attempt milliseconds
before the next one; the last failed attempt throws. -/
def fetchProofLoop (oracle : Nat → ProofAttempt) (attempt : Nat) : Nat → ProofFetch
  | 0 => ⟨none, [], 0⟩
  | remaining + 1 =>
    match attemptResult oracle attempt with
    | some p => ⟨some p, [], 1⟩
    | none =>
      if remaining = 0 then ⟨none, [], 1⟩
      else
        let rest := fetchProofLoop oracle (attempt + 1) remaining
        ⟨rest.result, 1000 * attempt :: rest.delays, rest.attempts + 1⟩

/-- fetchIndividualAssetProof with its default retry bound of 3. -/
def fetchIndividualAssetProof (oracle : Nat → ProofAttempt)
    (maxRetries : Nat := 3) : ProofFetch :=
  fetchProofLoop oracle 1 maxRetries

/-- One entry of a transaction instruction account list. -/
structure AccountMeta where
  pubkey : String
  isSigner : Bool
  isWritable : Bool
deriving DecidableEq

/-- A built TransactionInstruction: account list, program id, payload. -/
structure BuiltInstruction where
  keys : List AccountMeta
  programId : String
  data : List Nat
deriving DecidableEq

/-- Account-list entry for one proof sibling node. -/
def proofAccount (p : String) : AccountMeta := ⟨p, false, false⟩

/-- The transfer instruction built by transferCompressedNFTs for one job, from
the fetched asset data, the fetched proof and its node list, and the
recipient. -/
def buildTransferInstruction (fromPubkey : String) (assetData : AssetData)
    (assetProof : RawProof) (nodes : List String) (recipient : String) :
    BuiltInstruction :=
  let merkleTree := assetData.compression.tree
  let treeAuthority := findProgramAddressSync [toBytes merkleTree] BUBBLEGUM_PROGRAM_ID
  { keys :=
      [⟨treeAuthority, false, false⟩,
       ⟨fromPubkey, true, false⟩,
       ⟨assetData.ownership.delegate.getD fromPubkey, false, false⟩,
       ⟨recipient, false, false⟩,
       ⟨merkleTree, false, true⟩,
       ⟨SPL_NOOP_PROGRAM_ID, false, false⟩,
       ⟨SPL_ACCOUNT_COMPRESSION_PROGRAM_ID, false, false⟩,
       ⟨SYSTEM_PROGRAM_ID, false, false⟩] ++ nodes.map proofAccount,
    programId := BUBBLEGUM_PROGRAM_ID,
    data := serializeTransferInstructionData (bufferFromBase64 assetProof.root)
      (bufferFromBase64 assetData.compression.data_hash)
      (bufferFromBase64 assetData.compression.creator_hash)
      assetData.compression.leaf_id assetData.compression.leaf_id }

/-- Specific reason a job failed (the distinct throw sites of the per-job try
block of transferCompressedNFTs). -/
inductive FailReason where
  | fetchFailed
  | notOwner
  | invalidProof
  | submitError
deriving DecidableEq

/-- Terminal outcome of one job: skipped by the falsy mint/recipient guard,
failed with a reason, or confirmed with a signature. -/
inductive JobResult where
  | skipped
  | failed (reason : FailReason)
  | confirmed (sig : String)
deriving DecidableEq

/-- Is the job outcome a confirmed transfer. -/
def isConfirmed : JobResult → Bool
  | JobResult.confirmed _ => true
  | _ => false

/-- Environment of one transferCompressedNFTs invocation: the wallet and, per
job index and attempt number, the outcomes the external world produces for
asset fetch, proof fetch, and the sign-send-confirm sequence (some signature
when it confirms, none when any of its steps throws). -/
structure Env where
  walletConnected : Bool
  walletPubKey : String
  assetOracle : Nat → Nat → AssetAttempt
  proofOracle : Nat → Nat → ProofAttempt
  submitOracle : Nat → Nat → Option String

/-- The body of the per-job loop of transferCompressedNFTs, job index i:
falsy mint or recipient skips the job; the asset data and proof are fetched
together; a proof-fetch throw or a null asset is a fetch failure; an owner
mismatch is a not-owner failure; an empty (or non-array) proof is an
invalid-proof failure; otherwise the instruction is built and the transaction
is signed, sent and confirmed exactly once - a throw there fails the job. -/
def processJob (env : Env) (i : Nat) (mint recipient : String) :
    JobResult × Option BuiltInstruction :=
  if mint = "" ∨ recipient = "" then (JobResult.skipped, none)
  else
    let assetDataOpt := fetchIndividualAssetData (env.assetOracle i)
    let proofFetch := fetchIndividualAssetProof (env.proofOracle i)
    match proofFetch.result with
    | none => (JobResult.failed FailReason.fetchFailed, none)
    | some assetProof =>
      match assetDataOpt with
      | none => (JobResult.failed FailReason.fetchFailed, none)
      | some assetData =>
        if assetData.ownership.owner ≠ env.walletPubKey then
          (JobResult.failed FailReason.notOwner, none)
        else
          match assetProof.proof with
          | RawProofField.array nodes =>
            if nodes.length = 0 then (JobResult.failed FailReason.invalidProof, none)
            else
              let instr := buildTransferInstruction env.walletPubKey assetData
                assetProof nodes recipient
              match env.submitOracle i 1 with
              | none => (JobResult.failed FailReason.submitError, some instr)
              | some sig => (JobResult.confirmed sig, some instr)
          | _ => (JobResult.failed FailReason.invalidProof, none)

/-- Scheduling events of the batch loop: the moment job i starts being
processed and the moment it reaches a terminal outcome. -/
inductive Event where
  | jobStart (i : Nat)
  | jobEnd (i : Nat)
deriving DecidableEq

/-- Observable behaviour of one batch: the signature list the function
returns, plus instrumentation of the loop - per-job outcomes, the instruction
built per job (none when none was built), the scheduling events in order, and
the inter-job delays slept. -/
structure BatchTrace where
  signatures : List String
  outcomes : List JobResult
  instructions : List (Option BuiltInstruction)
  events : List Event
  delays : List Nat
deriving DecidableEq

/-- The for-loop of transferCompressedNFTs over the (mint, recipient) pairs,
starting at job index i.  Only confirmed jobs push onto signatures; every job
contributes an outcome; a 1000 ms delay separates consecutive jobs except
after a skipped job (continue jumps past the delay) and after the last job. -/
def runJobs (env : Env) : Nat → List (String × String) → BatchTrace
  | _, [] => ⟨[], [], [], [], []⟩
  | i, (mint, recipient) :: rest =>
    let step := processJob env i mint recipient
    let restTrace := runJobs env (i + 1) rest
    { signatures :=
        match step.1 with
        | JobResult.confirmed sig => sig :: restTrace.signatures
        | _ => restTrace.signatures,
      outcomes := step.1 :: restTrace.outcomes,
      instructions := step.2 :: restTrace.instructions,
      events := Event.jobStart i :: Event.jobEnd i :: restTrace.events,
      delays :=
        match step.1, rest with
        | JobResult.skipped, _ => restTrace.delays
        | _, [] => restTrace.delays
        | _, _ :: _ => 1000 :: restTrace.delays }

/-- transferCompressedNFTs: throws before any job if the wallet is not
connected or the input lists have different lengths, otherwise runs the
per-job loop and returns (the trace around) the signature list. -/
def transferCompressedNFTs (env : Env) (nftMints recipients : List String) :
    Except String BatchTrace :=
  if env.walletConnected = true then
    if nftMints.length = recipients.length then
      Except.ok (runJobs env 0 (nftMints.zip recipients))
    else Except.error "Number of NFTs must match number of recipients"
  else Except.error "Wallet not connected"

/-- Outcome the external world produces for one sign-send-confirm attempt of
transferRegularNFTs: success with a signature, or an error whose message does
or does not indicate a rate limit. -/
inductive SubmitAttempt where
  | ok (sig : String)
  | err (rateLimited : Bool)
deriving DecidableEq

/-- Observable behaviour of the submit retry loop of transferRegularNFTs. -/
structure SubmitLoop where
  result : Option String
  delays : List Nat
  attempts : Nat
deriving DecidableEq

/-- Did one submit attempt fail. -/
def submitFails (oracle : Nat → SubmitAttempt) (attempt : Nat) : Bool :=
  match oracle attempt with
  | SubmitAttempt.ok _ => false
  | SubmitAttempt.err _ => true

/-- Delay slept after one failed submit attempt of transferRegularNFTs:
2000 ms after a rate-limit error, 1000 ms otherwise (0 is unused filler for a
successful attempt, after which no delay is slept). -/
def submitDelayOf : SubmitAttempt → Nat
  | SubmitAttempt.ok _ => 0
  | SubmitAttempt.err rl => if rl then 2000 else 1000

/-- The while-loop of transferRegularNFTs: retries counts down from 3; a
successful attempt breaks; a failed attempt with retries exhausted throws;
otherwise the loop sleeps 2000 ms on a rate-limit error and 1000 ms on any
other error, then tries again. -/
def regularSubmitLoop (oracle : Nat → SubmitAttempt) (attempt : Nat) : Nat → SubmitLoop
  | 0 => ⟨none, [], 0⟩
  | retries + 1 =>
    match oracle attempt with
    | SubmitAttempt.ok sig => ⟨some sig, [], 1⟩
    | SubmitAttempt.err rl =>
      if retries = 0 then ⟨none, [], 1⟩
      else
        let rest := regularSubmitLoop oracle (attempt + 1) retries
        ⟨rest.result, (if rl then 2000 else 1000) :: rest.delays, rest.attempts + 1⟩

/-- The sign-send-confirm retry of transferRegularNFTs, budget 3 attempts. -/
def transferRegularNFTsSubmit (oracle : Nat → SubmitAttempt) : SubmitLoop :=
  regularSubmitLoop oracle 1 3

/-- Environment of one transferCompressedNFTsUmi invocation; the oracle gives
the outcome of the umi sendAndConfirm for job i (some signature when it
confirms, none when it throws). -/
structure UmiEnv where
  walletConnected : Bool
  transferOracle : Nat → Option String

/-- Observable behaviour of one transferCompressedNFTsUmi batch: the
signature list the function returns plus per-job instrumentation (none for a
skipped or failed job, some signature for a confirmed one). -/
structure UmiTrace where
  signatures : List String
  outcomes : List (Option String)
deriving DecidableEq

/-- The per-job loop of transferCompressedNFTsUmi: each non-skipped job sends
and confirms a transfer, but no branch ever appends to the signatures list,
which therefore stays as initialised. -/
def umiLoop (env : UmiEnv) : Nat → List (String × String) → UmiTrace
  | _, [] => ⟨[], []⟩
  | i, (mint, recipient) :: rest =>
    let restTrace := umiLoop env (i + 1) rest
    if mint = "" ∨ recipient = "" then ⟨restTrace.signatures, none :: restTrace.outcomes⟩
    else ⟨restTrace.signatures, env.transferOracle i :: restTrace.outcomes⟩

/-- transferCompressedNFTsUmi: same preconditions as transferCompressedNFTs,
then the umi per-job loop; returns the (never extended) signatures list. -/
def transferCompressedNFTsUmi (env : UmiEnv) (nftMints recipients : List String) :
    Except String UmiTrace :=
  if env.walletConnected = true then
    if nftMints.length = recipients.length then
      Except.ok (umiLoop env 0 (nftMints.zip recipients))
    else Except.error "Number of NFTs must match number of recipients"
  else Except.error "Wallet not connected"

/-- Seed list of the tree-authority derivation in
src/src/lib/solana/nft-transfer.ts: the merkle tree address alone. -/
def treeAuthoritySeedsMain (merkleTree : String) : List (List Nat) :=
  [toBytes merkleTree]

/-- Seed list of the tree-config derivation in the transferCompressedNFTs
variant of src/unnamed/part_001: a literal tree-config seed, then the merkle
tree address. -/
def treeAuthoritySeedsPart001 (merkleTree : String) : List (List Nat) :=
  [toBytes "tree-config", toBytes merkleTree]

/-- Seed list of the primary tree-authority derivation in
prepareCompressedNFTTransactionSimple of src/unnamed/part_002: the merkle
tree address alone. -/
def treeAuthoritySeedsPart002 (merkleTree : String) : List (List Nat) :=
  [toBytes merkleTree]

/-- Tree authority derived by nft-transfer.ts. -/
def deriveTreeAuthorityMain (merkleTree : String) : String :=
  findProgramAddressSync (treeAuthoritySeedsMain merkleTree) BUBBLEGUM_PROGRAM_ID

/-- Tree config account derived by the part_001 variant. -/
def deriveTreeConfigPart001 (merkleTree : String) : String :=
  findProgramAddressSync (treeAuthoritySeedsPart001 merkleTree) BUBBLEGUM_PROGRAM_ID

/-- Tree authority derived by the part_002 variant (primary method). -/
def deriveTreeAuthorityPart002 (merkleTree : String) : String :=
  findProgramAddressSync (treeAuthoritySeedsPart002 merkleTree) BUBBLEGUM_PROGRAM_ID

/-- Expected event trace of a sequential batch: for each job, its start
immediately followed by its end, in input order. -/
def expectedEvents : Nat → Nat → List Event
  | _, 0 => []
  | i, n + 1 => Event.jobStart i :: Event.jobEnd i :: expectedEvents (i + 1) n

lemma fix32_length (b : List Nat) : (fix32 b).length = 32 := by
  simp [fix32]
  omega

lemma u64LE_length (n : Nat) : (u64LE n).length = 8 := by
  simp [u64LE]

lemma u32LE_length (n : Nat) : (u32LE n).length = 4 := by
  simp [u32LE]

lemma discriminator_length : TRANSFER_DISCRIMINATOR.length = 8 := rfl

/-- C2: for every job whose asset data and proof pass validation, the built
compressed-transfer instruction lists, in order: the derived tree authority,
the leaf owner (the signer, the only account with the signer flag), the
delegate-or-owner fallback, the recipient, the merkle tree (the only account
with the writable flag), the noop program, the compression program, the
system program, then every proof sibling node in fetched order; so the list
has 8 + len(proofNodes) accounts. -/
theorem instruction_account_list (fromPubkey : String) (assetData : AssetData)
    (assetProof : RawProof) (nodes : List String) (recipient : String) :
    (buildTransferInstruction fromPubkey assetData assetProof nodes recipient).keys =
      [⟨findProgramAddressSync [toBytes assetData.compression.tree] BUBBLEGUM_PROGRAM_ID,
          false, false⟩,
       ⟨fromPubkey, true, false⟩,
       ⟨assetData.ownership.delegate.getD fromPubkey, false, false⟩,
       ⟨recipient, false, false⟩,
       ⟨assetData.compression.tree, false, true⟩,
       ⟨SPL_NOOP_PROGRAM_ID, false, false⟩,
       ⟨SPL_ACCOUNT_COMPRESSION_PROGRAM_ID, false, false⟩,
       ⟨SYSTEM_PROGRAM_ID, false, false⟩] ++ nodes.map proofAccount ∧
    (buildTransferInstruction fromPubkey assetData assetProof nodes recipient).keys.length =
      8 + nodes.length ∧
    (buildTransferInstruction fromPubkey assetData assetProof nodes
        recipient).keys.map AccountMeta.isSigner =
      [false, true, false, false, false, false, false, false] ++
        nodes.map (fun _ => false) ∧
    (buildTransferInstruction fromPubkey assetData assetProof nodes
        recipient).keys.map AccountMeta.isWritable =
      [false, false, false, false, true, false, false, false] ++
        nodes.map (fun _ => false) := by
  refine ⟨rfl, by simp [buildTransferInstruction]; omega, ?_, ?_⟩ <;>
    simp [buildTransferInstruction, proofAccount, Function.comp_def, List.map_const']

/-- C3: the payload of every built compressed-transfer instruction is the
8-byte transfer discriminator, then root, dataHash and creatorHash as
fixed-width 32-byte strings, then the leaf index of the asset twice - as an
8-byte little-endian nonce and as a 4-byte little-endian index - for a total
of 8 + 32 + 32 + 32 + 8 + 4 bytes. -/
theorem instruction_payload_layout (fromPubkey : String) (assetData : AssetData)
    (assetProof : RawProof) (nodes : List String) (recipient : String) :
    (buildTransferInstruction fromPubkey assetData assetProof nodes recipient).data =
      TRANSFER_DISCRIMINATOR ++ fix32 (bufferFromBase64 assetProof.root) ++
        fix32 (bufferFromBase64 assetData.compression.data_hash) ++
        fix32 (bufferFromBase64 assetData.compression.creator_hash) ++
        u64LE assetData.compression.leaf_id ++
        u32LE assetData.compression.leaf_id ∧
    (buildTransferInstruction fromPubkey assetData assetProof nodes
        recipient).data.length = 8 + 32 + 32 + 32 + 8 + 4 := by
  refine ⟨rfl, ?_⟩
  simp [buildTransferInstruction, serializeTransferInstructionData, fix32_length,
    u64LE_length, u32LE_length, discriminator_length]

/-- C5: jobs are processed strictly one at a time in input order - the event
trace of the batch loop is exactly start, end of job i, then start, end of
job i+1, and so on - and every job reaches a terminal outcome regardless of
the outcomes of the jobs before it: no job failure aborts the batch. -/
theorem batch_sequential_no_abort (env : Env) (pairs : List (String × String))
    (i : Nat) :
    (runJobs env i pairs).events = expectedEvents i pairs.length ∧
    (runJobs env i pairs).outcomes.length = pairs.length := by
  induction pairs generalizing i with
  | nil => exact ⟨rfl, rfl⟩
  | cons hd tl ih =>
    obtain ⟨m, r⟩ := hd
    exact ⟨by simp [runJobs, expectedEvents, (ih (i + 1)).1],
           by simp [runJobs, (ih (i + 1)).2]⟩

/-- C8 counterexample: the transferCompressedNFTs variant of part_001 does not
derive the tree authority from the merkle-tree address as sole seed - for the
concrete tree address T it passes a two-element seed list whose first element
is the literal tree-config seed, and the derived account differs from the one
the main variant derives for the same tree. -/
theorem tree_authority_seed_mismatch :
    treeAuthoritySeedsPart001 "T" ≠ [toBytes "T"] ∧
    deriveTreeConfigPart001 "T" ≠ deriveTreeAuthorityMain "T" := by
  constructor <;> decide

/-- C8 amended: the main variant (nft-transfer.ts) and the part_002 variant
derive the tree authority deterministically with the merkle-tree address as
sole seed under the Bubblegum program, so they agree with each other for
every tree, and the derived authority is the first account of every built
instruction; the part_001 variant instead prepends a literal tree-config
seed, so its derivation input is not the sole-seed one. -/
theorem tree_authority_derivation (tree fromPubkey recipient : String)
    (assetData : AssetData) (assetProof : RawProof) (nodes : List String) :
    treeAuthoritySeedsMain tree = [toBytes tree] ∧
    deriveTreeAuthorityMain tree = deriveTreeAuthorityPart002 tree ∧
    treeAuthoritySeedsPart001 tree = [toBytes "tree-config", toBytes tree] ∧
    (buildTransferInstruction fromPubkey assetData assetProof nodes
        recipient).keys.head? =
      some ⟨deriveTreeAuthorityMain assetData.compression.tree, false, false⟩ := by
  refine ⟨rfl, rfl, rfl, ?_⟩
  simp [buildTransferInstruction, deriveTreeAuthorityMain, treeAuthoritySeedsMain]

lemma umiLoop_signatures (env : UmiEnv) (pairs : List (String × String)) (i : Nat) :
    (umiLoop env i pairs).signatures = [] := by
  induction pairs generalizing i with
  | nil => rfl
  | cons hd tl ih =>
    obtain ⟨m, r⟩ := hd
    by_cases h : m = "" ∨ r = "" <;> simp [umiLoop, h, ih (i + 1)]

lemma umiLoop_outcomes_length (env : UmiEnv) (pairs : List (String × String))
    (i : Nat) : (umiLoop env i pairs).outcomes.length = pairs.length := by
  induction pairs generalizing i with
  | nil => rfl
  | cons hd tl ih =>
    obtain ⟨m, r⟩ := hd
    by_cases h : m = "" ∨ r = "" <;> simp [umiLoop, h, ih (i + 1)]

/-- C10: every successful transferCompressedNFTsUmi invocation returns an
empty signature list - no branch of its loop appends to the list - even
though every job is processed (one outcome per input pair, confirmed ones
included). -/
theorem umi_returns_empty (env : UmiEnv) (nftMints recipients : List String)
    (t : UmiTrace)
    (h : transferCompressedNFTsUmi env nftMints recipients = Except.ok t) :
    t.signatures = [] ∧ t.outcomes.length = nftMints.length := by
  unfold transferCompressedNFTsUmi at h
  by_cases hc : env.walletConnected = true
  · rw [if_pos hc] at h
    by_cases hl : nftMints.length = recipients.length
    · rw [if_pos hl] at h
      injection h with h
      subst h
      refine ⟨umiLoop_signatures _ _ _, ?_⟩
      rw [umiLoop_outcomes_length]
      simp [hl]
    · rw [if_neg hl] at h
      simp at h
  · rw [if_neg hc] at h
    simp at h

/-- Umi environment in which the single job confirms successfully. -/
def envC10 : UmiEnv := ⟨true, fun _ => some "SIG1"⟩

/-- C10 witness: a one-job batch whose transfer confirms (outcome some SIG1)
still returns no signature. -/
theorem umi_returns_empty_witness :
    (⟨[], [some "SIG1"]⟩ : UmiTrace).signatures = [] ∧
    (⟨[], [some "SIG1"]⟩ : UmiTrace).outcomes.length = 1 :=
  umi_returns_empty envC10 ["m1"] ["r1"] ⟨[], [some "SIG1"]⟩ rfl

lemma runJobs_outcomes_length (env : Env) (pairs : List (String × String))
    (i : Nat) : (runJobs env i pairs).outcomes.length = pairs.length := by
  induction pairs generalizing i with
  | nil => rfl
  | cons hd tl ih =>
    obtain ⟨m, r⟩ := hd
    simp [runJobs, ih (i + 1)]

lemma runJobs_signature_count (env : Env) (pairs : List (String × String))
    (i : Nat) :
    (runJobs env i pairs).signatures.length =
      ((runJobs env i pairs).outcomes.filter isConfirmed).length := by
  induction pairs generalizing i with
  | nil => rfl
  | cons hd tl ih =>
    obtain ⟨m, r⟩ := hd
    rcases h : (processJob env i m r).1 with _ | reason | sig <;>
      simp [runJobs, h, isConfirmed, ih (i + 1)]

/-- Environment in which the only job of the batch fails at the fetch stage:
all asset and proof requests hit transport errors. -/
def envC1 : Env :=
  ⟨true, "W", fun _ _ => AssetAttempt.transport, fun _ _ => ProofAttempt.transport,
   fun _ _ => none⟩

/-- C1 counterexample: a batch of N = 1 jobs whose single job fails returns a
signature list with 0 entries, not 1 - the failure is not represented in the
returned batch result, so the result size does not equal the input size. -/
theorem batch_result_drops_failures :
    transferCompressedNFTs envC1 ["m1"] ["r1"] =
      Except.ok ⟨[], [JobResult.failed FailReason.fetchFailed], [none],
        [Event.jobStart 0, Event.jobEnd 0], []⟩ := by
  rfl

/-- C1 amended: the returned batch result lists one signature per confirmed
job only - its size equals the number of confirmed jobs, hence is at most N
and drops failed jobs - while every one of the N jobs is still processed to a
terminal outcome. -/
theorem batch_result_counts (env : Env) (nftMints recipients : List String)
    (t : BatchTrace)
    (h : transferCompressedNFTs env nftMints recipients = Except.ok t) :
    t.outcomes.length = nftMints.length ∧
    t.signatures.length = (t.outcomes.filter isConfirmed).length ∧
    t.signatures.length ≤ nftMints.length := by
  unfold transferCompressedNFTs at h
  by_cases hc : env.walletConnected = true
  · rw [if_pos hc] at h
    by_cases hl : nftMints.length = recipients.length
    · rw [if_pos hl] at h
      injection h with h
      subst h
      have hzip : (nftMints.zip recipients).length = nftMints.length := by
        simp [hl]
      refine ⟨by rw [runJobs_outcomes_length, hzip],
              runJobs_signature_count env _ 0, ?_⟩
      calc (runJobs env 0 (nftMints.zip recipients)).signatures.length
          = ((runJobs env 0 (nftMints.zip recipients)).outcomes.filter
              isConfirmed).length := runJobs_signature_count env _ 0
        _ ≤ (runJobs env 0 (nftMints.zip recipients)).outcomes.length :=
            List.length_filter_le _ _
        _ = nftMints.length := by rw [runJobs_outcomes_length, hzip]
    · rw [if_neg hl] at h
      simp at h
  · rw [if_neg hc] at h
    simp at h

/-- Asset owned by wallet W, used by the witness environments. -/
def assetW : AssetData := ⟨⟨"W", none⟩, ⟨"TREE", "qqqq", "rrrr", 5⟩⟩

/-- Well-formed one-node proof used by the witness environments. -/
def proofW : RawProof := ⟨"ssss", RawProofField.array ["P1"]⟩

/-- Environment in which the only job of the batch confirms with SIGW. -/
def envC1w : Env :=
  ⟨true, "W", fun _ _ => AssetAttempt.result (some assetW),
   fun _ _ => ProofAttempt.result (some proofW), fun _ _ => some "SIGW"⟩

/-- C1 amended witness: a one-job batch that confirms has one outcome, and
its signature count equals its confirmed count and is at most 1. -/
theorem batch_result_counts_witness :
    (runJobs envC1w 0 (["m1"].zip ["r1"])).outcomes.length = 1 ∧
    (runJobs envC1w 0 (["m1"].zip ["r1"])).signatures.length =
      ((runJobs envC1w 0 (["m1"].zip ["r1"])).outcomes.filter isConfirmed).length ∧
    (runJobs envC1w 0 (["m1"].zip ["r1"])).signatures.length ≤ 1 :=
  batch_result_counts envC1w ["m1"] ["r1"] _ rfl

/-- C4: when the fetched asset is owned by a wallet other than the signing
wallet (the job having passed the guards and fetches before the ownership
check), the job fails with the not-owner reason and no transfer instruction
is constructed for it. -/
theorem ownership_mismatch_fails (env : Env) (i : Nat) (mint recipient : String)
    (assetData : AssetData)
    (hm : mint ≠ "") (hr : recipient ≠ "")
    (ha : fetchIndividualAssetData (env.assetOracle i) = some assetData)
    (hp : (fetchIndividualAssetProof (env.proofOracle i)).result.isSome = true)
    (how : assetData.ownership.owner ≠ env.walletPubKey) :
    processJob env i mint recipient = (JobResult.failed FailReason.notOwner, none) := by
  obtain ⟨p, hp2⟩ := Option.isSome_iff_exists.mp hp
  simp [processJob, hm, hr, ha, hp2, how]

/-- Asset owned by wallet A, not by the signing wallet W. -/
def assetC4 : AssetData := ⟨⟨"A", none⟩, ⟨"TREE", "qqqq", "rrrr", 5⟩⟩

/-- Environment whose asset is owned by A while the signer is W. -/
def envC4 : Env :=
  ⟨true, "W", fun _ _ => AssetAttempt.result (some assetC4),
   fun _ _ => ProofAttempt.result (some proofW), fun _ _ => some "SIG"⟩

/-- C4 witness: the concrete job with owner A and signer W fails with the
not-owner reason and builds no instruction. -/
theorem ownership_mismatch_fails_witness :
    processJob envC4 0 "m1" "r1" = (JobResult.failed FailReason.notOwner, none) :=
  ownership_mismatch_fails envC4 0 "m1" "r1" assetC4 (by decide) (by decide) rfl rfl
    (by decide)

/-- C6: the proof fetch makes at most 3 attempts; the delay slept after
failed attempt j (before attempt j + 1) is 1000 * j milliseconds; the fetch
surfaces a failure exactly when all 3 attempts fail; the asset-metadata fetch
depends only on a single request (attempt 1), and a null asset is terminal
for the job - it fails with the fetch-failed reason. -/
theorem proof_fetch_retry_policy (oracle : Nat → ProofAttempt)
    (oA oB : Nat → AssetAttempt) (env : Env) (i : Nat) (mint recipient : String)
    (p : RawProof)
    (hsame : oA 1 = oB 1)
    (hm : mint ≠ "") (hr : recipient ≠ "")
    (ha : fetchIndividualAssetData (env.assetOracle i) = none)
    (hp : (fetchIndividualAssetProof (env.proofOracle i)).result = some p) :
    (fetchIndividualAssetProof oracle).attempts ≤ 3 ∧
    (fetchIndividualAssetProof oracle).delays =
      (List.range ((fetchIndividualAssetProof oracle).attempts - 1)).map
        (fun j => 1000 * (j + 1)) ∧
    ((fetchIndividualAssetProof oracle).result = none ↔
      attemptResult oracle 1 = none ∧ attemptResult oracle 2 = none ∧
        attemptResult oracle 3 = none) ∧
    fetchIndividualAssetData oA = fetchIndividualAssetData oB ∧
    processJob env i mint recipient =
      (JobResult.failed FailReason.fetchFailed, none) := by
  have hdata : fetchIndividualAssetData oA = fetchIndividualAssetData oB := by
    unfold fetchIndividualAssetData
    rw [hsame]
  have hjob : processJob env i mint recipient =
      (JobResult.failed FailReason.fetchFailed, none) := by
    simp [processJob, hm, hr, ha, hp]
  rcases h1 : attemptResult oracle 1 with _ | p1
  · rcases h2 : attemptResult oracle 2 with _ | p2
    · rcases h3 : attemptResult oracle 3 with _ | p3
      · have hv : fetchIndividualAssetProof oracle = ⟨none, [1000, 2000], 3⟩ := by
          simp [fetchIndividualAssetProof, fetchProofLoop, h1, h2, h3]
        rw [hv]
        exact ⟨by simp, rfl, by simp [h1, h2, h3], hdata, hjob⟩
      · have hv : fetchIndividualAssetProof oracle = ⟨some p3, [1000, 2000], 3⟩ := by
          simp [fetchIndividualAssetProof, fetchProofLoop, h1, h2, h3]
        rw [hv]
        exact ⟨by simp, rfl, by simp [h3], hdata, hjob⟩
    · have hv : fetchIndividualAssetProof oracle = ⟨some p2, [1000], 2⟩ := by
        simp [fetchIndividualAssetProof, fetchProofLoop, h1, h2]
      rw [hv]
      exact ⟨by simp, rfl, by simp [h2], hdata, hjob⟩
  · have hv : fetchIndividualAssetProof oracle = ⟨some p1, [], 1⟩ := by
      simp [fetchIndividualAssetProof, fetchProofLoop, h1]
    rw [hv]
    exact ⟨by simp, rfl, by simp [h1], hdata, hjob⟩

/-- Proof-fetch oracle that always hits a transport error. -/
def oracleC6 : Nat → ProofAttempt := fun _ => ProofAttempt.transport

/-- Asset-fetch oracle that always hits a transport error. -/
def oAssetC6 : Nat → AssetAttempt := fun _ => AssetAttempt.transport

/-- Environment whose asset fetch returns null while the proof fetch
succeeds. -/
def envC6 : Env :=
  ⟨true, "W", fun _ _ => AssetAttempt.transport,
   fun _ _ => ProofAttempt.result (some proofW), fun _ _ => some "SIG"⟩

/-- C6 witness: with every proof attempt failing, the fetch uses its full
budget of 3 attempts, sleeps 1000 then 2000 milliseconds, and surfaces the
failure; the concrete job whose asset fetch returned null fails with the
fetch-failed reason. -/
theorem proof_fetch_retry_policy_witness :
    (fetchIndividualAssetProof oracleC6).attempts ≤ 3 ∧
    (fetchIndividualAssetProof oracleC6).delays =
      (List.range ((fetchIndividualAssetProof oracleC6).attempts - 1)).map
        (fun j => 1000 * (j + 1)) ∧
    ((fetchIndividualAssetProof oracleC6).result = none ↔
      attemptResult oracleC6 1 = none ∧ attemptResult oracleC6 2 = none ∧
        attemptResult oracleC6 3 = none) ∧
    fetchIndividualAssetData oAssetC6 = fetchIndividualAssetData oAssetC6 ∧
    processJob envC6 0 "m1" "r1" =
      (JobResult.failed FailReason.fetchFailed, none) :=
  proof_fetch_retry_policy oracleC6 oAssetC6 oAssetC6 envC6 0 "m1" "r1" proofW rfl
    (by decide) (by decide) rfl rfl

/-- C7: a fetched proof whose node array is empty fails the job with the
invalid-proof reason before any instruction is built, and a proof response
whose proof field is absent or not an array is already rejected by the
structural validation inside the proof fetch, so it never reaches
instruction construction at all. -/
theorem empty_proof_rejected (env : Env) (i : Nat) (mint recipient : String)
    (assetData : AssetData) (rt s : String)
    (hm : mint ≠ "") (hr : recipient ≠ "")
    (ha : fetchIndividualAssetData (env.assetOracle i) = some assetData)
    (hp : (fetchIndividualAssetProof (env.proofOracle i)).result =
      some ⟨rt, RawProofField.array []⟩)
    (how : assetData.ownership.owner = env.walletPubKey) :
    processJob env i mint recipient =
      (JobResult.failed FailReason.invalidProof, none) ∧
    validateProofStructure (some ⟨s, RawProofField.missing⟩) = none ∧
    validateProofStructure (some ⟨s, RawProofField.notArray⟩) = none := by
  refine ⟨?_, by simp [validateProofStructure, isArrayField],
    by simp [validateProofStructure, isArrayField]⟩
  simp [processJob, hm, hr, ha, hp, how]

/-- Environment whose proof fetch returns a structurally valid proof with an
empty node array, for an asset owned by the signer W. -/
def envC7 : Env :=
  ⟨true, "W", fun _ _ => AssetAttempt.result (some assetW),
   fun _ _ => ProofAttempt.result (some ⟨"ssss", RawProofField.array []⟩),
   fun _ _ => some "SIG"⟩

/-- C7 witness: the concrete job whose fetched proof has an empty node array
fails with the invalid-proof reason and builds no instruction, and malformed
proof fields are rejected by the fetch validation. -/
theorem empty_proof_rejected_witness :
    processJob envC7 0 "m1" "r1" =
      (JobResult.failed FailReason.invalidProof, none) ∧
    validateProofStructure (some ⟨"ssss", RawProofField.missing⟩) = none ∧
    validateProofStructure (some ⟨"ssss", RawProofField.notArray⟩) = none :=
  empty_proof_rejected envC7 0 "m1" "r1" assetW "ssss" "ssss" (by decide) (by decide)
    rfl rfl rfl

/-- Asset owned by the signer W, used by the C9 environment. -/
def assetC9 : AssetData := ⟨⟨"W", none⟩, ⟨"TREE", "qqqq", "rrrr", 5⟩⟩

/-- Two-node proof used by the C9 environment. -/
def proofC9 : RawProof := ⟨"ssss", RawProofField.array ["P1", "P2"]⟩

/-- Environment whose only job passes every stage but whose first
sign-and-submit attempt throws, while a second attempt would succeed. -/
def envC9 : Env :=
  ⟨true, "W", fun _ _ => AssetAttempt.result (some assetC9),
   fun _ _ => ProofAttempt.result (some proofC9),
   fun _ a => if a = 1 then none else some "SIG"⟩

/-- C9 counterexample: in transferCompressedNFTs a submission error is not
retried - the concrete job whose first sign-and-submit attempt throws is
immediately marked failed and yields no signature, even though a second
attempt would have succeeded. -/
theorem submit_no_retry_compressed :
    (runJobs envC9 0 [("m1", "r1")]).outcomes =
      [JobResult.failed FailReason.submitError] ∧
    (runJobs envC9 0 [("m1", "r1")]).signatures = [] ∧
    envC9.submitOracle 0 2 = some "SIG" := by
  refine ⟨?_, ?_, ?_⟩ <;> rfl

/-- C9 amended: in transferCompressedNFTs each job signs and submits exactly
once - a submission error immediately marks the job failed; the up-to-3
retry exists only in the single-transaction loop of transferRegularNFTs,
which sleeps 2000 milliseconds after a rate-limited attempt and 1000
milliseconds after any other failed attempt, and surfaces the failure only
when all 3 attempts fail. -/
theorem submit_retry_policy (oracle : Nat → SubmitAttempt) (env : Env) (i : Nat)
    (mint recipient : String) (assetData : AssetData) (rt : String)
    (nodes : List String)
    (hm : mint ≠ "") (hr : recipient ≠ "")
    (ha : fetchIndividualAssetData (env.assetOracle i) = some assetData)
    (hp : (fetchIndividualAssetProof (env.proofOracle i)).result =
      some ⟨rt, RawProofField.array nodes⟩)
    (how : assetData.ownership.owner = env.walletPubKey)
    (hn : nodes.length ≠ 0)
    (hs : env.submitOracle i 1 = none) :
    processJob env i mint recipient =
      (JobResult.failed FailReason.submitError,
       some (buildTransferInstruction env.walletPubKey assetData
         ⟨rt, RawProofField.array nodes⟩ nodes recipient)) ∧
    (transferRegularNFTsSubmit oracle).attempts ≤ 3 ∧
    ((transferRegularNFTsSubmit oracle).result = none ↔
      submitFails oracle 1 = true ∧ submitFails oracle 2 = true ∧
        submitFails oracle 3 = true) ∧
    (transferRegularNFTsSubmit oracle).delays =
      (List.range ((transferRegularNFTsSubmit oracle).attempts - 1)).map
        (fun j => submitDelayOf (oracle (j + 1))) := by
  have hjob : processJob env i mint recipient =
      (JobResult.failed FailReason.submitError,
       some (buildTransferInstruction env.walletPubKey assetData
         ⟨rt, RawProofField.array nodes⟩ nodes recipient)) := by
    simp [processJob, hm, hr, ha, hp, how, hn, hs]
  rcases h1 : oracle 1 with s1 | rl1
  · have hv : transferRegularNFTsSubmit oracle = ⟨some s1, [], 1⟩ := by
      simp [transferRegularNFTsSubmit, regularSubmitLoop, h1]
    rw [hv]
    exact ⟨hjob, by simp, by simp [submitFails, h1], rfl⟩
  · rcases h2 : oracle 2 with s2 | rl2
    · have hv : transferRegularNFTsSubmit oracle =
          ⟨some s2, [if rl1 then 2000 else 1000], 2⟩ := by
        simp [transferRegularNFTsSubmit, regularSubmitLoop, h1, h2]
      rw [hv]
      exact ⟨hjob, by simp, by simp [submitFails, h2],
        by simp [h1, submitDelayOf, List.range_succ]⟩
    · rcases h3 : oracle 3 with s3 | rl3
      · have hv : transferRegularNFTsSubmit oracle =
            ⟨some s3, [if rl1 then 2000 else 1000, if rl2 then 2000 else 1000], 3⟩ := by
          simp [transferRegularNFTsSubmit, regularSubmitLoop, h1, h2, h3]
        rw [hv]
        exact ⟨hjob, by simp, by simp [submitFails, h3],
          by simp [h1, h2, submitDelayOf, List.range_succ]⟩
      · have hv : transferRegularNFTsSubmit oracle =
            ⟨none, [if rl1 then 2000 else 1000, if rl2 then 2000 else 1000], 3⟩ := by
          simp [transferRegularNFTsSubmit, regularSubmitLoop, h1, h2, h3]
        rw [hv]
        exact ⟨hjob, by simp, by simp [submitFails, h1, h2, h3],
          by simp [h1, h2, submitDelayOf, List.range_succ]⟩

/-- Submit oracle whose every attempt fails without a rate limit. -/
def oracleC9 : Nat → SubmitAttempt := fun _ => SubmitAttempt.err false

/-- C9 amended witness: the concrete compressed job fails at its single
submission attempt with the instruction built, and the regular-transfer
retry loop run against an always-failing oracle uses its 3 attempts, sleeps
1000 milliseconds after each of the first two, and surfaces the failure. -/
theorem submit_retry_policy_witness :
    processJob envC9 0 "m1" "r1" =
      (JobResult.failed FailReason.submitError,
       some (buildTransferInstruction envC9.walletPubKey assetC9
         ⟨"ssss", RawProofField.array ["P1", "P2"]⟩ ["P1", "P2"] "r1")) ∧
    (transferRegularNFTsSubmit oracleC9).attempts ≤ 3 ∧
    ((transferRegularNFTsSubmit oracleC9).result = none ↔
      submitFails oracleC9 1 = true ∧ submitFails oracleC9 2 = true ∧
        submitFails oracleC9 3 = true) ∧
    (transferRegularNFTsSubmit oracleC9).delays =
      (List.range ((transferRegularNFTsSubmit oracleC9).attempts - 1)).map
        (fun j => submitDelayOf (oracleC9 (j + 1))) :=
  submit_retry_policy oracleC9 envC9 0 "m1" "r1" assetC9 "ssss" ["P1", "P2"]
    (by decide) (by decide) rfl rfl rfl (by decide) rfl

end NftAirdrop
